import Mathlib

/-!
Verification development for the drinfo drive-report tool (src/main.c).

The C program is embedded shallowly:
* C strings become `List Char`; raw byte strings (the rendered bar, which mixes
  ANSI escape bytes with UTF-8 glyph bytes) become `List Nat` of byte values;
* `double` arithmetic becomes exact `ℚ` arithmetic (every value the claims
  touch is exactly representable in binary floating point, so the rational
  model agrees with the C program at those points); an IEEE division whose
  divisor is zero (which yields a non-finite double) is modelled as `none`;
* unsigned 64-bit arithmetic is `Nat` with explicit reduction mod 2 ^ 64 at
  the operations that can wrap;
* the mount-table scan becomes a fold over a list of mount entries, each
  carrying the outcome of its `statvfs` call and of the bar-buffer `malloc`.
-/

set_option maxRecDepth 100000

namespace Drinfo

/-! ### Byte-string utilities -/

/-- Bytes of a Lean string literal (all literals used are ASCII, one byte per char). -/
def strBytes (s : String) : List Nat := s.data.map Char.toNat

/-- C `strstr(hay, needle) != NULL`: the needle occurs somewhere in the haystack. -/
def hasSubstr (needle : List Char) : List Char → Bool
  | [] => needle.isEmpty
  | c :: rest => needle.isPrefixOf (c :: rest) || hasSubstr needle rest

/-- Embeds `visible_length` (src/main.c lines 256-270): scan the byte string,
a byte 0x1b (ESC) enters escape mode, a byte 'm' (0x6d) while in escape mode
leaves it, and every byte seen outside escape mode counts one.  Note this
counts *bytes*, not display characters. -/
def visLenAux : List Nat → Bool → Nat
  | [], _ => 0
  | c :: s, esc =>
    if c = 27 then visLenAux s true
    else if esc ∧ c = 109 then visLenAux s false
    else if esc then visLenAux s esc
    else visLenAux s esc + 1

def visible_length (s : List Nat) : Nat := visLenAux s false

/-! ### 64-bit arithmetic helpers -/

def mul64 (a b : Nat) : Nat := a * b % 2 ^ 64

def sub64 (a b : Nat) : Nat := (((a : Int) - (b : Int)) % (2 ^ 64)).toNat

/-! ### Percent / size arithmetic (src/main.c lines 163-192) -/

/-- Embeds `calculate_usage_percent`: 0 when total is 0, else used/total*100,
with the unsigned subtraction `total - available` wrapping mod 2^64. -/
def calculate_usage_percent (total available : Nat) : ℚ :=
  if total = 0 then 0
  else ((sub64 total available : ℚ) / (total : ℚ)) * 100

/-- Round to nearest integer, halves up; models the rounding `snprintf` performs
when printing with a fixed number of decimals (all values formatted in the
claims are exact, so no tie ever arises). -/
def rnd (q : ℚ) : Int := Int.floor (q + 1 / 2)

/-- Zero-pad a digit string on the left to width `d`. -/
def zeroPad (s : String) (d : Nat) : String :=
  String.mk (List.replicate (d - s.length) '0') ++ s

/-- Model of `snprintf(buf, n, "%.df", q)` for a fixed decimal count `d`. -/
def formatFixed (q : ℚ) (d : Nat) : String :=
  let scaled : Int := rnd (q * (10 : ℚ) ^ d)
  let sgn := if scaled < 0 then "-" else ""
  let n := scaled.natAbs
  if d = 0 then sgn ++ toString n
  else sgn ++ toString (n / 10 ^ d) ++ "." ++ zeroPad (toString (n % 10 ^ d)) d

def size_units : List String := ["B", "KB", "MB", "GB", "TB"]

/-- The `while (size >= 1024 && unit_index < 4)` loop of `format_bytes`;
the index strictly increases, so four iterations always suffice. -/
def fbLoop : ℚ → Nat → Nat → ℚ × Nat
  | size, u, 0 => (size, u)
  | size, u, fuel + 1 =>
    if 1024 ≤ size ∧ u < 4 then fbLoop (size / 1024) (u + 1) fuel else (size, u)

/-- Embeds `format_bytes` (src/main.c lines 163-183). -/
def format_bytes (bytes : Nat) : String :=
  let p := fbLoop (bytes : ℚ) 0 4
  let unit := size_units.getD p.2 ""
  if p.2 = 0 then formatFixed p.1 0 ++ " " ++ unit
  else formatFixed p.1 2 ++ " " ++ unit

/-! ### Gradient (src/main.c lines 232-253) -/

/-- C cast `(int)q` of a floating value: truncation toward zero. -/
def ctruncQ (q : ℚ) : Int := if q < 0 then -Int.floor (-q) else Int.floor q

/-- Embeds `get_bar_color`: two-segment linear interpolation green-yellow-red
over `frac = idx / (mx - 1)`, channels truncated by the integer cast. -/
def get_bar_color (idx mx : Nat) : Int × Int × Int :=
  let frac : ℚ := (idx : ℚ) / ((mx : ℚ) - 1)
  if frac < 1 / 2 then
    (ctruncQ (frac * 2 * 255), 255, 0)
  else
    (255, ctruncQ ((1 - (frac - 1 / 2) * 2) * 255), 0)

/-! ### Terminal geometry (identical in both rendering paths:
src/main.c lines 744-754, 438-448 and 881-887) -/

def box_width (terminal_width : Nat) : Nat :=
  if terminal_width * 4 / 5 > 120 then 120
  else if terminal_width * 4 / 5 < 40 then 40
  else terminal_width * 4 / 5

def content_width (terminal_width : Nat) : Nat := box_width terminal_width - 4

def bar_length (terminal_width : Nat) : Nat :=
  if content_width terminal_width - 2 < 10 then 10
  else content_width terminal_width - 2

/-! ### Bar rendering (src/main.c lines 757-794 and 450-488) -/

def filled_length (usage : ℚ) (bl : Nat) : Nat := (ctruncQ (usage / 100 * (bl : ℚ))).toNat

/-- The percentage text `snprintf(.., "%.1f%%", usage)`. -/
def percent_text (usage : ℚ) : String := formatFixed usage 1 ++ "%"

def text_start (filled tlen : Nat) : Nat :=
  if filled > tlen then (filled - tlen) / 2 else 0

/-- Bytes of `"\x1b[0m"`. -/
def resetBytes : List Nat := strBytes "\x1b[0m"

/-- Bytes emitted by `snprintf(.., "\x1b[38;2;%d;%d;%dm", r, g, b)`. -/
def fgColorBytes (r g b : Int) : List Nat :=
  strBytes "\x1b[38;2;" ++ strBytes (toString r) ++ strBytes ";" ++
    strBytes (toString g) ++ strBytes ";" ++ strBytes (toString b) ++ strBytes "m"

/-- Bytes emitted by `snprintf(.., "\x1b[48;2;%d;%d;%dm", r, g, b)`. -/
def bgColorBytes (r g b : Int) : List Nat :=
  strBytes "\x1b[48;2;" ++ strBytes (toString r) ++ strBytes ";" ++
    strBytes (toString g) ++ strBytes ";" ++ strBytes (toString b) ++ strBytes "m"

/-- UTF-8 bytes of the full-block glyph U+2588 as it appears in the C source. -/
def blockBytes : List Nat := [226, 150, 136]

/-- UTF-8 bytes of the light-shade glyph U+2591 as it appears in the C source. -/
def shadeBytes : List Nat := [226, 150, 145]

/-- One overlaid percentage-text cell: gradient background, blue foreground,
one text byte, then reset. -/
def textCellBytes (i mx ts : Nat) (text : List Nat) : List Nat :=
  let c := get_bar_color i mx
  bgColorBytes c.1 c.2.1 c.2.2 ++ fgColorBytes 0 0 255 ++ [text.getD (i - ts) 0] ++ resetBytes

/-- One filled cell: gradient foreground, full-block glyph, reset. -/
def blockCellBytes (i mx : Nat) : List Nat :=
  let c := get_bar_color i mx
  fgColorBytes c.1 c.2.1 c.2.2 ++ blockBytes ++ resetBytes

/-- One unfilled-track cell: the literal
`"\x1b[48;2;64;64;64m\x1b[38;2;160;160;160m" ++ shade ++ "\x1b[0m"`. -/
def shadeCellBytes : List Nat :=
  bgColorBytes 64 64 64 ++ fgColorBytes 160 160 160 ++ shadeBytes ++ resetBytes

/-- The loop body for position `i` of the bar (each `strncat` appends one of
three cell forms; every cell is at most 40 bytes, well below the 64 bytes per
cell the buffer reserves, so `strncat` never truncates). -/
def barCell (i mx filled ts : Nat) (text : List Nat) : List Nat :=
  if ts ≤ i ∧ i < ts + text.length ∧ i < filled then textCellBytes i mx ts text
  else if i < filled then blockCellBytes i mx
  else shadeCellBytes

/-- The full bar byte string for a given terminal width and usage percentage. -/
def render_bar (termW : Nat) (usage : ℚ) : List Nat :=
  let bl := bar_length termW
  let text := strBytes (percent_text usage)
  let fl := filled_length usage bl
  let ts := text_start fl text.length
  ((List.range bl).map fun i => barCell i bl fl ts text).flatten

/-- The padding the report writer computes at src/main.c line 890:
`content_width - visible_length(bar)` (a C `int`, so it can be negative). -/
def bar_padding (termW : Nat) (bar : List Nat) : Int :=
  (content_width termW : Int) - (visible_length bar : Int)

/-- Visible bytes of the printed bar line after the two-space indent:
`printf("%s%*s", bar, pad, "")` appends `|pad|` spaces (a negative field
width is treated as the `-` flag with the absolute width). -/
def printed_line_visible (termW : Nat) (bar : List Nat) : Nat :=
  visible_length bar + (bar_padding termW bar).natAbs

/-! ### Classification (src/main.c lines 84-88, 194-230, 689-718, 796-809) -/

def skip_filesystems : List (List Char) :=
  ["proc".data, "sysfs".data, "devpts".data, "tmpfs".data, "devtmpfs".data,
   "securityfs".data, "cgroup".data, "cgroup2".data, "pstore".data,
   "efivarfs".data, "autofs".data, "debugfs".data, "tracefs".data,
   "configfs".data, "fusectl".data, "fuse.gvfsd-fuse".data, "binfmt_misc".data,
   "fuse.portal".data]

def should_skip (fstype : List Char) : Bool :=
  skip_filesystems.any fun s => s == fstype

def is_physical_device (fsname : List Char) : Bool :=
  "/dev/sd".data.isPrefixOf fsname || "/dev/nvme".data.isPrefixOf fsname ||
    "/dev/hd".data.isPrefixOf fsname

def is_network_device (fsname : List Char) : Bool :=
  "//".data.isPrefixOf fsname || "\\\\".data.isPrefixOf fsname ||
    hasSubstr ":".data fsname

def is_network_filesystem (fstype : List Char) : Bool :=
  fstype == "nfs".data || fstype == "nfs4".data || fstype == "cifs".data ||
    fstype == "smb".data || fstype == "smb3".data || fstype == "fuse.sshfs".data ||
    fstype == "fuse.rclone".data || fstype == "fuse.gvfsd-fuse".data ||
    "fuse.".data.isPrefixOf fstype

def is_appimage_or_temp (fsname mountpoint : List Char) : Bool :=
  hasSubstr ".AppImage".data fsname || hasSubstr "/tmp/.mount_".data mountpoint ||
    hasSubstr "/tmp/".data mountpoint

/-- A mount-table record survives all three rejection gates of the main loop
(skip-set, physical-or-network acceptance, AppImage/temp filter). -/
def reportable (fsname mountpoint fstype : List Char) : Bool :=
  !should_skip fstype &&
    (is_physical_device fsname || is_network_device fsname || is_network_filesystem fstype) &&
    !is_appimage_or_temp fsname mountpoint

/-- The drive-type tag assignment (src/main.c lines 796-809). -/
def drive_type_of (fsname fstype : List Char) : String :=
  if is_physical_device fsname then "Local Drive"
  else if is_network_filesystem fstype || is_network_device fsname then "Network Drive"
  else "Other Drive"

/-! ### DriveInfo records and the two record-construction paths -/

/-- Result of a successful `statvfs` call (the fields the program reads). -/
structure StatVfs where
  f_blocks : Nat
  f_frsize : Nat
  f_bavail : Nat
  f_files : Nat
  f_favail : Nat
deriving DecidableEq, Repr

/-- A double that is `none` models the non-finite IEEE result of dividing by
zero; every finite value is `some` of its exact rational value. -/
def qdivF (a b : ℚ) : Option ℚ := if b = 0 then none else some (a / b)

/-- The fields of `drive_info_t` the claims are about. -/
structure drive_info_t where
  mount_point : List Char
  filesystem : List Char
  device : List Char
  mount_options : List Char
  total_str : String
  used_str : String
  available_str : String
  total_bytes : Nat
  used_bytes : Nat
  available_bytes : Nat
  usage_percent : ℚ
  drive_type : String
  progress_bar : List Nat
  is_cloud_storage : Bool
  cloud_service_name : String
  total_inodes : Nat
  used_inodes : Nat
  inode_usage : Option ℚ
deriving DecidableEq, Repr

/-- Record built from one accepted mount-table entry
(src/main.c lines 720-824). -/
def mkMountDrive (fsname mountpoint fstype opts : List Char) (st : StatVfs)
    (termW : Nat) : drive_info_t :=
  let total_bytes := mul64 st.f_blocks st.f_frsize
  let available_bytes := mul64 st.f_bavail st.f_frsize
  let used_bytes := sub64 total_bytes available_bytes
  let usage := calculate_usage_percent total_bytes available_bytes
  let total_inodes := st.f_files
  let used_inodes := if total_inodes > 0 then sub64 total_inodes st.f_favail else 0
  { mount_point := mountpoint
    filesystem := fstype
    device := fsname
    mount_options := opts
    total_str := format_bytes total_bytes
    used_str := format_bytes used_bytes
    available_str := format_bytes available_bytes
    total_bytes := total_bytes
    used_bytes := used_bytes
    available_bytes := available_bytes
    usage_percent := usage
    drive_type := drive_type_of fsname fstype
    progress_bar := render_bar termW usage
    is_cloud_storage := false
    cloud_service_name := ""
    total_inodes := total_inodes
    used_inodes := used_inodes
    inode_usage := if total_inodes > 0
      then some (((used_inodes : ℚ) / (total_inodes : ℚ)) * 100)
      else some 0 }

def gvfs_service_name (name : List Char) : String :=
  if hasSubstr "google-drive".data name then "Google Drive"
  else if hasSubstr "dropbox".data name then "Dropbox"
  else if hasSubstr "onedrive".data name then "OneDrive"
  else if hasSubstr "mega".data name then "MEGA"
  else "Cloud Storage"

/-- Record built for one GVFS cloud-storage directory
(src/main.c lines 420-520).  Note lines 516-517 store `f_blocks` as the
inode total, `f_files` as the used count, and divide `f_files / f_blocks`
with no zero guard and no factor 100. -/
def mkGvfsDrive (gvfs_path name : List Char) (st : StatVfs) (termW : Nat) :
    drive_info_t :=
  let total_bytes := mul64 st.f_blocks st.f_frsize
  let available_bytes := mul64 st.f_bavail st.f_frsize
  let used_bytes := sub64 total_bytes available_bytes
  let usage := calculate_usage_percent total_bytes available_bytes
  { mount_point := gvfs_path ++ "/".data ++ name
    filesystem := "fuse.gvfsd-fuse".data
    device := name
    mount_options := []
    total_str := format_bytes total_bytes
    used_str := format_bytes used_bytes
    available_str := format_bytes available_bytes
    total_bytes := total_bytes
    used_bytes := used_bytes
    available_bytes := available_bytes
    usage_percent := usage
    drive_type := "Network Drive"
    progress_bar := render_bar termW usage
    is_cloud_storage := true
    cloud_service_name := gvfs_service_name name
    total_inodes := st.f_blocks
    used_inodes := st.f_files
    inode_usage := qdivF (st.f_files : ℚ) (st.f_blocks : ℚ) }

/-! ### Aggregation (src/main.c lines 118-128 and 837-838) -/

/-- Embeds `compare_drives_by_capacity`: positive when `b` has more capacity,
negative when `a` has more, zero on ties (descending order under `qsort`). -/
def compare_drives_by_capacity (a b : drive_info_t) : Int :=
  if a.total_bytes < b.total_bytes then 1
  else if b.total_bytes < a.total_bytes then -1
  else 0

/-- The element order `qsort` establishes: comparator at most zero. -/
def qsort_le (a b : drive_info_t) : Bool :=
  decide (compare_drives_by_capacity a b ≤ 0)

/-- The `qsort` call at src/main.c line 838.  glibc's `qsort` is a stable
merge sort in its default path, and the aggregator contract is satisfied by
any stable-or-better sort, so the sort is modelled by the stable `mergeSort`. -/
def sortDrives (l : List drive_info_t) : List drive_info_t :=
  l.mergeSort qsort_le

/-! ### The mount-table scan loop (src/main.c lines 686-825) -/

/-- One mount-table entry together with the outcome of the external calls the
loop body makes for it: its `statvfs` result (`none` on failure) and whether
the `malloc` for its bar buffer succeeds. -/
structure MountEntry where
  mnt_fsname : List Char
  mnt_dir : List Char
  mnt_type : List Char
  mnt_opts : List Char
  stat_result : Option StatVfs
  alloc_ok : Bool
deriving DecidableEq, Repr

/-- The loop body for one entry: each rejection gate and each failed external
call lands on `continue` (the accumulator is returned unchanged); otherwise
the built record is appended. -/
def processEntry (termW : Nat) (acc : List drive_info_t) (e : MountEntry) :
    List drive_info_t :=
  if should_skip e.mnt_type then acc
  else if !(is_physical_device e.mnt_fsname || is_network_device e.mnt_fsname ||
      is_network_filesystem e.mnt_type) then acc
  else if is_appimage_or_temp e.mnt_fsname e.mnt_dir then acc
  else match e.stat_result with
    | none => acc
    | some st =>
      if e.alloc_ok then
        acc ++ [mkMountDrive e.mnt_fsname e.mnt_dir e.mnt_type e.mnt_opts st termW]
      else acc

/-- The `while (getmntent && drive_count < MAX_DRIVES)` loop. -/
def scanMounts (termW : Nat) : List MountEntry → List drive_info_t → List drive_info_t
  | [], acc => acc
  | e :: rest, acc =>
    if 100 ≤ acc.length then acc
    else scanMounts termW rest (processEntry termW acc e)

/-- The whole run: exit 1 when the mount table cannot be opened, else scan,
append the GVFS cloud records, sort, print, and exit 0. -/
def runMain (termW : Nat) (mtab : Option (List MountEntry))
    (gvfs : List drive_info_t) : Nat × List drive_info_t :=
  match mtab with
  | none => (1, [])
  | some entries => (0, sortDrives (scanMounts termW entries [] ++ gvfs))

/-! ### Shared helper lemmas -/

theorem hasSubstr_iff (n h : List Char) : hasSubstr n h = true ↔ n <:+: h := by
  induction h with
  | nil => simp [hasSubstr, List.isEmpty_iff]
  | cons c t ih => simp [hasSubstr, ih, List.infix_cons_iff]

theorem hasSubstr_mono {p n h : List Char} (hpn : p <:+: n)
    (hh : hasSubstr n h = true) : hasSubstr p h = true := by
  rw [hasSubstr_iff] at hh ⊢
  exact hpn.trans hh

theorem filled_length_zero (bl : Nat) : filled_length 0 bl = 0 := by
  simp [filled_length, ctruncQ]

theorem filled_length_hundred (bl : Nat) : filled_length 100 bl = bl := by
  have h1 : (100 : ℚ) / 100 * (bl : ℚ) = (bl : ℚ) := by norm_num
  have h2 : ¬((bl : ℚ) < 0) := not_lt.mpr (by positivity)
  simp [filled_length, ctruncQ, h1, h2]

/-! ### Claims -/

/-- Claim C1.  The spec states that the printed bar line is padded with spaces
so that its total visible width (count of non-styling bytes, escape runs from
the 0x1b introducer to the `m` terminator excluded) equals the content width
(clamped box width minus 4).  The code violates this: `visible_length` counts
every non-escape *byte*, and the block and shade glyphs are three UTF-8 bytes
each, so the bar's visible length always exceeds the content width and the
computed padding is negative.  At terminal width 80 and usage 50% (total
2048 bytes, 1024 available) the bar has visible length 164 while the content
width is 60; the padding is -104, which `printf("%*s", pad, "")` renders as
104 spaces, for a printed visible width of 268, not 60. -/
theorem claim_C1_padding_bug :
    visible_length (render_bar 80 (calculate_usage_percent 2048 1024)) = 164 ∧
    content_width 80 = 60 ∧
    bar_padding 80 (render_bar 80 (calculate_usage_percent 2048 1024)) = -104 ∧
    printed_line_visible 80 (render_bar 80 (calculate_usage_percent 2048 1024)) = 268 := by
  refine ⟨?_, ?_, ?_, ?_⟩ <;> with_unfolding_all decide

/-- Claim C2.  The spec states `inode_usage = 0` whenever `total_inodes = 0`,
for mount-table records and GVFS cloud-storage records alike.  The GVFS path
(src/main.c lines 516-517) stores `f_blocks` as the inode total and computes
`(double)f_files / (double)f_blocks` with no zero guard: when `f_blocks = 0`
the record's inode total is 0 but its inode usage is the non-finite result of
dividing by zero (modelled as `none`), not 0. -/
theorem claim_C2_gvfs_inode_bug :
    (mkGvfsDrive "/run/user/1000/gvfs".data "google-drive".data
      ⟨0, 4096, 0, 5, 0⟩ 80).total_inodes = 0 ∧
    (mkGvfsDrive "/run/user/1000/gvfs".data "google-drive".data
      ⟨0, 4096, 0, 5, 0⟩ 80).inode_usage = none := by
  refine ⟨?_, ?_⟩ <;> with_unfolding_all decide

/-- Claim C3.  For unsigned 64-bit inputs with `total ≥ available`, the usage
percentage returned by `calculate_usage_percent` lies in `[0, 100]`, and is
exactly 0 whenever `total = 0`. -/
theorem claim_C3_usage_percent_bounds (total available : Nat)
    (h1 : available ≤ total) (h2 : total < 2 ^ 64) :
    0 ≤ calculate_usage_percent total available ∧
    calculate_usage_percent total available ≤ 100 ∧
    (total = 0 → calculate_usage_percent total available = 0) := by
  by_cases h0 : total = 0
  · simp [calculate_usage_percent, h0]
  · have hsub : sub64 total available = total - available := by
      unfold sub64
      rw [Int.emod_eq_of_lt (by omega) (by omega)]
      omega
    have htpos : (0 : ℚ) < (total : ℚ) := by
      exact_mod_cast Nat.pos_of_ne_zero h0
    have hle : ((total - available : Nat) : ℚ) ≤ (total : ℚ) := by
      exact_mod_cast Nat.sub_le total available
    have hnn : (0 : ℚ) ≤ ((total - available : Nat) : ℚ) := by positivity
    refine ⟨?_, ?_, fun ht => absurd ht h0⟩
    · unfold calculate_usage_percent
      rw [if_neg h0, hsub]
      positivity
    · unfold calculate_usage_percent
      rw [if_neg h0, hsub]
      have hq : ((total - available : Nat) : ℚ) / (total : ℚ) ≤ 1 :=
        (div_le_one htpos).mpr hle
      nlinarith

/-- Witness for claim C3 at total 100, available 25. -/
theorem claim_C3_witness :
    0 ≤ calculate_usage_percent 100 25 ∧
    calculate_usage_percent 100 25 ≤ 100 ∧
    (100 = 0 → calculate_usage_percent 100 25 = 0) :=
  claim_C3_usage_percent_bounds 100 25 (by decide) (by decide)

/-- Claim C10.  The bar length is floored at 10 after the terminal-width
clamp (the same computation serves both rendering paths, src/main.c lines
744-754 and 438-448), so the `max - 1` denominator in `get_bar_color`'s
ratio is at least 9 and, in the exact model, nonzero: the division the
gradient performs is never a division by zero on any actual call. -/
theorem claim_C10_bar_length_floor (termW : Nat) :
    10 ≤ bar_length termW ∧ 9 ≤ bar_length termW - 1 ∧
    (9 : ℚ) ≤ (bar_length termW : ℚ) - 1 := by
  have h : 10 ≤ bar_length termW := by
    unfold bar_length
    split
    · omega
    · omega
  have h10 : (10 : ℚ) ≤ (bar_length termW : ℚ) := by exact_mod_cast h
  exact ⟨h, by omega, by linarith⟩

/-- Witness for claim C10 at the fallback terminal width 80. -/
theorem claim_C10_witness :
    10 ≤ bar_length 80 ∧ 9 ≤ bar_length 80 - 1 ∧
    (9 : ℚ) ≤ (bar_length 80 : ℚ) - 1 :=
  claim_C10_bar_length_floor 80

/-- Claim C5.  For every bar length `N > 1` the gradient is pure green
`(0,255,0)` at index 0 and pure red `(255,0,0)` at index `N-1`, and at the
midpoint `(N-1)/2` of an odd-length bar it is pure yellow `(255,255,0)`;
the channels are two-segment linear interpolations truncated by the C
integer cast (`ctruncQ`), not rounded. -/
theorem claim_C5_gradient_endpoints (N : Nat) (h : 1 < N) :
    get_bar_color 0 N = (0, 255, 0) ∧
    get_bar_color (N - 1) N = (255, 0, 0) ∧
    (N % 2 = 1 → get_bar_color ((N - 1) / 2) N = (255, 255, 0)) := by
  have hN : ((N : ℚ) - 1) ≠ 0 := by
    have : (1 : ℚ) < (N : ℚ) := by exact_mod_cast h
    intro hq
    linarith
  refine ⟨?_, ?_, ?_⟩
  · simp only [get_bar_color, Nat.cast_zero, zero_div]
    norm_num [ctruncQ]
  · have hc : ((N - 1 : Nat) : ℚ) = (N : ℚ) - 1 := by
      have h1 : 1 ≤ N := le_of_lt h
      push_cast [h1]
      ring
    simp only [get_bar_color, hc, div_self hN]
    norm_num [ctruncQ]
  · intro hodd
    obtain ⟨k, hk⟩ : ∃ k, N = 2 * k + 1 := ⟨N / 2, by omega⟩
    have hkpos : 0 < k := by omega
    have hidx : (N - 1) / 2 = k := by omega
    have hkQ : (0 : ℚ) < (k : ℚ) := by exact_mod_cast hkpos
    have hfrac : ((k : ℚ)) / ((N : ℚ) - 1) = 1 / 2 := by
      have hm : ((N : ℚ) - 1) = 2 * (k : ℚ) := by
        subst hk
        push_cast
        ring
      rw [hm, div_eq_div_iff (by linarith) (by norm_num)]
      ring
    simp only [get_bar_color, hidx, hfrac]
    norm_num [ctruncQ]

/-- Witness for claim C5 at bar length 11 (odd, midpoint index 5). -/
theorem claim_C5_witness :
    get_bar_color 0 11 = (0, 255, 0) ∧
    get_bar_color 10 11 = (255, 0, 0) ∧
    get_bar_color 5 11 = (255, 255, 0) :=
  ⟨(claim_C5_gradient_endpoints 11 (by decide)).1,
   (claim_C5_gradient_endpoints 11 (by decide)).2.1,
   (claim_C5_gradient_endpoints 11 (by decide)).2.2 (by decide)⟩

/-- Claim C7.  The human-readable size formatter yields exactly `"1023 B"`,
`"1.00 KB"`, `"1.50 KB"` and `"1.00 TB"` on inputs 1023, 1024, 1536 and
1099511627776. -/
theorem claim_C7_format_bytes :
    format_bytes 1023 = "1023 B" ∧
    format_bytes 1024 = "1.00 KB" ∧
    format_bytes 1536 = "1.50 KB" ∧
    format_bytes 1099511627776 = "1.00 TB" := by
  refine ⟨?_, ?_, ?_, ?_⟩ <;> with_unfolding_all decide

/-- Claim C4.  For every bar length, at usage 0% the filled length is 0 and
every cell of the rendered bar is the unfilled-track (shade) cell; at usage
100% the filled length equals the bar length and every cell is either an
overlaid percentage-text cell or a filled block cell — never the
unfilled-track cell. -/
theorem claim_C4_bar_extremes (bl i : Nat) (h : i < bl) :
    filled_length 0 bl = 0 ∧
    barCell i bl (filled_length 0 bl)
      (text_start (filled_length 0 bl) (strBytes (percent_text 0)).length)
      (strBytes (percent_text 0)) = shadeCellBytes ∧
    filled_length 100 bl = bl ∧
    (barCell i bl (filled_length 100 bl)
        (text_start (filled_length 100 bl) (strBytes (percent_text 100)).length)
        (strBytes (percent_text 100)) =
      textCellBytes i bl
        (text_start (filled_length 100 bl) (strBytes (percent_text 100)).length)
        (strBytes (percent_text 100)) ∨
     barCell i bl (filled_length 100 bl)
        (text_start (filled_length 100 bl) (strBytes (percent_text 100)).length)
        (strBytes (percent_text 100)) = blockCellBytes i bl) ∧
    (∀ termW : Nat, render_bar termW 0 =
      (List.replicate (bar_length termW) shadeCellBytes).flatten) := by
  refine ⟨filled_length_zero bl, ?_, filled_length_hundred bl, ?_, ?_⟩
  · rw [filled_length_zero]
    simp [barCell]
  · rw [filled_length_hundred]
    by_cases hc : text_start bl (strBytes (percent_text 100)).length ≤ i ∧
        i < text_start bl (strBytes (percent_text 100)).length +
          (strBytes (percent_text 100)).length ∧ i < bl
    · left
      simp only [barCell]
      rw [if_pos hc]
    · right
      simp only [barCell]
      rw [if_neg hc, if_pos h]
  · intro termW
    simp only [render_bar, filled_length_zero]
    rw [List.map_congr_left (fun j _ => by simp [barCell] :
      ∀ j ∈ List.range (bar_length termW),
        barCell j (bar_length termW) 0
          (text_start 0 (strBytes (percent_text 0)).length)
          (strBytes (percent_text 0)) = shadeCellBytes)]
    rw [List.map_const', List.length_range]

/-- Witness for claim C4 at bar length 12, cell index 3. -/
theorem claim_C4_witness :
    filled_length 0 12 = 0 ∧
    barCell 3 12 (filled_length 0 12)
      (text_start (filled_length 0 12) (strBytes (percent_text 0)).length)
      (strBytes (percent_text 0)) = shadeCellBytes ∧
    filled_length 100 12 = 12 ∧
    (barCell 3 12 (filled_length 100 12)
        (text_start (filled_length 100 12) (strBytes (percent_text 100)).length)
        (strBytes (percent_text 100)) =
      textCellBytes 3 12
        (text_start (filled_length 100 12) (strBytes (percent_text 100)).length)
        (strBytes (percent_text 100)) ∨
     barCell 3 12 (filled_length 100 12)
        (text_start (filled_length 100 12) (strBytes (percent_text 100)).length)
        (strBytes (percent_text 100)) = blockCellBytes 3 12) ∧
    render_bar 80 0 = (List.replicate (bar_length 80) shadeCellBytes).flatten :=
  ⟨(claim_C4_bar_extremes 12 3 (by decide)).1,
   (claim_C4_bar_extremes 12 3 (by decide)).2.1,
   (claim_C4_bar_extremes 12 3 (by decide)).2.2.1,
   (claim_C4_bar_extremes 12 3 (by decide)).2.2.2.1,
   (claim_C4_bar_extremes 12 3 (by decide)).2.2.2.2 80⟩

/-- Claim C6 counterexample.  The claim says a record whose device or mount
point falls under `/tmp/.mount_AppImageXYZ` is excluded regardless of type;
but a record whose *device* is `/tmp/.mount_AppImageXYZ` (mounted elsewhere)
with filesystem type `nfs` passes every rejection gate — the AppImage filter
looks for the literal substring `.AppImage` in the device (absent here: the
device contains `_AppImage`) and for `/tmp/` only in the mount point — and
is classified as a Network Drive. -/
theorem claim_C6_counterexample :
    reportable "/tmp/.mount_AppImageXYZ".data "/mnt/data".data "nfs".data = true ∧
    drive_type_of "/tmp/.mount_AppImageXYZ".data "nfs".data = "Network Drive" := by
  refine ⟨?_, ?_⟩ <;> decide

/-- Claim C6, amended.  The drive-type tag follows the precedence physical →
network → other; `/dev/sda1` with `ext4` is Local, `server:/export` with
`nfs` is Network, `//server/share` with `cifs` is Network; and a record whose
*mount point* falls under `/tmp/.mount_AppImageXYZ` is excluded regardless of
its filesystem type (exclusion by device path alone does not hold, see the
counterexample). -/
theorem claim_C6_amended :
    (∀ fsname fstype : List Char, is_physical_device fsname = true →
      drive_type_of fsname fstype = "Local Drive") ∧
    (∀ fsname fstype : List Char, is_physical_device fsname = false →
      (is_network_filesystem fstype || is_network_device fsname) = true →
      drive_type_of fsname fstype = "Network Drive") ∧
    (∀ fsname fstype : List Char, is_physical_device fsname = false →
      (is_network_filesystem fstype || is_network_device fsname) = false →
      drive_type_of fsname fstype = "Other Drive") ∧
    (drive_type_of "/dev/sda1".data "ext4".data = "Local Drive" ∧
      reportable "/dev/sda1".data "/mnt/disk".data "ext4".data = true) ∧
    (drive_type_of "server:/export".data "nfs".data = "Network Drive" ∧
      reportable "server:/export".data "/mnt/nfs".data "nfs".data = true) ∧
    (drive_type_of "//server/share".data "cifs".data = "Network Drive" ∧
      reportable "//server/share".data "/mnt/smb".data "cifs".data = true) ∧
    (∀ fsname mountpoint fstype : List Char,
      hasSubstr "/tmp/.mount_AppImageXYZ".data mountpoint = true →
      reportable fsname mountpoint fstype = false) := by
  refine ⟨?_, ?_, ?_, by decide, by decide, by decide, ?_⟩
  · intro fsname fstype hp
    simp [drive_type_of, hp]
  · intro fsname fstype hp hn
    simp [drive_type_of, hp, hn]
  · intro fsname fstype hp hn
    simp [drive_type_of, hp, hn]
  · intro fsname mountpoint fstype hmnt
    have hmid : hasSubstr "/tmp/.mount_".data mountpoint = true :=
      hasSubstr_mono ⟨[], "AppImageXYZ".data, by decide⟩ hmnt
    simp [reportable, is_appimage_or_temp, hmid]

/-- Witness for the amended claim C6: each precedence branch and the
mount-point exclusion at concrete inputs. -/
theorem claim_C6_witness :
    drive_type_of "/dev/sda1".data "ext4".data = "Local Drive" ∧
    drive_type_of "server:/export".data "nfs".data = "Network Drive" ∧
    drive_type_of "fuse_thing".data "ext4".data = "Other Drive" ∧
    reportable "/dev/sdb1".data "/tmp/.mount_AppImageXYZ".data "ext4".data = false :=
  ⟨claim_C6_amended.1 "/dev/sda1".data "ext4".data (by decide),
   claim_C6_amended.2.1 "server:/export".data "nfs".data (by decide) (by decide),
   claim_C6_amended.2.2.1 "fuse_thing".data "ext4".data (by decide) (by decide),
   claim_C6_amended.2.2.2.2.2.2 "/dev/sdb1".data "/tmp/.mount_AppImageXYZ".data
     "ext4".data (by decide)⟩

/-! ### Sorting lemmas for claim C8 -/

theorem qsort_le_iff (a b : drive_info_t) :
    qsort_le a b = true ↔ b.total_bytes ≤ a.total_bytes := by
  unfold qsort_le compare_drives_by_capacity
  by_cases h1 : a.total_bytes < b.total_bytes
  · simp only [h1, if_true, decide_eq_true_eq]
    omega
  · by_cases h2 : b.total_bytes < a.total_bytes
    · simp only [h1, h2, if_false, if_true, decide_eq_true_eq]
      omega
    · simp only [h1, h2, if_false, decide_eq_true_eq]
      omega

theorem qsort_le_trans (a b c : drive_info_t)
    (h1 : qsort_le a b) (h2 : qsort_le b c) : qsort_le a c := by
  rw [qsort_le_iff] at h1 h2 ⊢
  omega

theorem qsort_le_total (a b : drive_info_t) : qsort_le a b || qsort_le b a := by
  rw [Bool.or_eq_true, qsort_le_iff, qsort_le_iff]
  omega

/-- Minimal record used to exercise the sort on concrete capacities. -/
def sampleDrive (tag total : Nat) : drive_info_t :=
  { mount_point := (toString tag).data
    filesystem := []
    device := []
    mount_options := []
    total_str := ""
    used_str := ""
    available_str := ""
    total_bytes := total
    used_bytes := 0
    available_bytes := 0
    usage_percent := 0
    drive_type := ""
    progress_bar := []
    is_cloud_storage := false
    cloud_service_name := ""
    total_inodes := 0
    used_inodes := 0
    inode_usage := some 0 }

/-- Claim C8.  The aggregated records are a permutation of the collected
records in non-increasing order of total capacity, records of equal capacity
keep their discovery order (the comparator only inspects `total_bytes` and
returns 0 on ties, so a stable sort — which glibc's `qsort` is in its default
merge-sort path — preserves their relative order), and drives with totals
`[10, 50, 30]` come out as `[50, 30, 10]`. -/
theorem claim_C8_sort_descending (l : List drive_info_t) :
    (sortDrives l).Perm l ∧
    (sortDrives l).Pairwise (fun a b => b.total_bytes ≤ a.total_bytes) ∧
    (∀ a b : drive_info_t, List.Sublist [a, b] l → a.total_bytes = b.total_bytes →
      List.Sublist [a, b] (sortDrives l)) ∧
    sortDrives [sampleDrive 1 10, sampleDrive 2 50, sampleDrive 3 30] =
      [sampleDrive 2 50, sampleDrive 3 30, sampleDrive 1 10] := by
  refine ⟨List.mergeSort_perm l qsort_le, ?_, ?_, ?_⟩
  · exact (List.sorted_mergeSort qsort_le_trans qsort_le_total l).imp
      fun h => (qsort_le_iff _ _).mp h
  · intro a b hsub heq
    exact List.pair_sublist_mergeSort qsort_le_trans qsort_le_total
      ((qsort_le_iff a b).mpr (le_of_eq heq.symm)) hsub
  · with_unfolding_all decide

/-- Witness for claim C8: the concrete `[10, 50, 30]` ordering and tie
stability for two equal-capacity drives. -/
theorem claim_C8_witness :
    sortDrives [sampleDrive 1 10, sampleDrive 2 50, sampleDrive 3 30] =
      [sampleDrive 2 50, sampleDrive 3 30, sampleDrive 1 10] ∧
    List.Sublist [sampleDrive 4 7, sampleDrive 5 7]
      (sortDrives [sampleDrive 4 7, sampleDrive 5 7]) :=
  ⟨(claim_C8_sort_descending [sampleDrive 1 10, sampleDrive 2 50, sampleDrive 3 30]).2.2.2,
   (claim_C8_sort_descending [sampleDrive 4 7, sampleDrive 5 7]).2.2.1
     (sampleDrive 4 7) (sampleDrive 5 7) (List.Sublist.refl _) rfl⟩

/-! ### Scan-loop lemmas for claim C9 -/

theorem processEntry_alloc_fail (termW : Nat) (acc : List drive_info_t)
    (e : MountEntry) (h : e.alloc_ok = false) : processEntry termW acc e = acc := by
  unfold processEntry
  split
  · rfl
  · split
    · rfl
    · split
      · rfl
      · split
        · rfl
        · rw [h]
          simp

theorem scanMounts_full (termW : Nat) (l : List MountEntry)
    (acc : List drive_info_t) (h : 100 ≤ acc.length) :
    scanMounts termW l acc = acc := by
  cases l with
  | nil => rfl
  | cons e rest => simp [scanMounts, h]

/-- Claim C9.  If the bar-buffer allocation fails for one mount record, that
record alone is omitted: the scan of the remaining records proceeds exactly
as if the failing record were absent (already-collected records included),
and the run still exits 0. -/
theorem claim_C9_alloc_fail_skips_one (termW : Nat) (pre post : List MountEntry)
    (e : MountEntry) (acc : List drive_info_t) (h : e.alloc_ok = false) :
    scanMounts termW (pre ++ e :: post) acc = scanMounts termW (pre ++ post) acc ∧
    (runMain termW (some (pre ++ e :: post)) []).1 = 0 := by
  refine ⟨?_, rfl⟩
  induction pre generalizing acc with
  | nil =>
    simp only [List.nil_append, scanMounts]
    by_cases hlen : 100 ≤ acc.length
    · rw [if_pos hlen, scanMounts_full termW post acc hlen]
    · rw [if_neg hlen, processEntry_alloc_fail termW acc e h]
  | cons p pre ih =>
    simp only [List.cons_append, scanMounts]
    by_cases hlen : 100 ≤ acc.length
    · rw [if_pos hlen, if_pos hlen]
    · rw [if_neg hlen, if_neg hlen]
      exact ih (processEntry termW acc p)

/-- Witness for claim C9: a one-entry mount table whose single entry fails
its bar allocation yields the same (empty) collection as the empty table, and
the run exits 0. -/
theorem claim_C9_witness :
    scanMounts 80 [⟨"/dev/sda1".data, "/".data, "ext4".data, "rw".data,
        some ⟨100, 4096, 50, 10, 5⟩, false⟩] [] =
      scanMounts 80 [] [] ∧
    (runMain 80 (some [⟨"/dev/sda1".data, "/".data, "ext4".data, "rw".data,
        some ⟨100, 4096, 50, 10, 5⟩, false⟩]) []).1 = 0 :=
  claim_C9_alloc_fail_skips_one 80 [] []
    ⟨"/dev/sda1".data, "/".data, "ext4".data, "rw".data,
      some ⟨100, 4096, 50, 10, 5⟩, false⟩ [] rfl

end Drinfo
